import Mathlib

/-!
Shallow embedding of `src/strategy/fundamental_reversal.py` (Sequoia).

The module offers a composite stock screen `check` built from:
  * `check_ma_breakthrough` — technical trend-reversal detector over the
    price/volume history (a pandas DataFrame with columns 收盘 = close and
    成交量 = volume; the function attaches derived MA250 / MA60 columns);
  * `check_financial_growth` — ROE and net-profit trajectory screen,
    fetching data from the `akshare` provider inside a try/except;
  * `check_financial_ratios` — debt-ratio and dividend-yield screen, also
    provider-backed with nested try/except blocks.

Prices and volumes are embedded as rationals; a pandas/talib NaN entry of a
moving-average column is embedded as `none`, and a comparison against `none`
is `false`, matching `NaN < x` / `NaN >= 0` in numpy.  Provider calls are
embedded as `Fetch` values supplied by the environment: a call either raises
(`Fetch.raises`), returns `None`/an empty frame (`Fetch.missing`), or returns
data (`Fetch.ok`).  The bodies guarded by `try` are given as `Except`-valued
functions (`...Run`), and the public functions apply the `except` handler
that converts an escaped exception into `False`.
-/

/-- One row of the price DataFrame: 收盘 (close) and 成交量 (volume). -/
structure Bar where
  close : ℚ
  volume : ℚ
deriving DecidableEq, Repr

instance : Inhabited Bar := ⟨⟨0, 0⟩⟩

/-- The price DataFrame: its rows, plus the optional derived columns that
`check_ma_breakthrough` attaches in place (`data['MA250'] = ...`). -/
structure DataFrame where
  bars : List Bar
  ma250 : Option (List (Option ℚ))
  ma60 : Option (List (Option ℚ))
deriving DecidableEq, Repr

/-- Value of `tl.MA(closes, timeperiod=window)` at index `i`: `none` (NaN)
for `i < window - 1`, otherwise the mean of `closes[i-window+1 .. i]`. -/
def maValue (closes : List ℚ) (window i : ℕ) : Option ℚ :=
  if window ≤ i + 1 then
    some (((closes.drop (i + 1 - window)).take window).sum / (window : ℚ))
  else none

/-- The full moving-average column over a close series (`MovingAverageSeries`
aligned 1:1 with the rows). -/
def movingAverage (closes : List ℚ) (window : ℕ) : List (Option ℚ) :=
  (List.range closes.length).map (maValue closes window)

/-- Count of indices `start, start+1, ..., start+cnt-1` satisfying `p`;
embeds `sum(<boolean series over a window>)`. -/
def countWhen (p : ℕ → Bool) (start : ℕ) : ℕ → ℕ
  | 0 => 0
  | k + 1 => countWhen p start k + (if p (start + k) then 1 else 0)

/-- Sum of the 成交量 column over rows `start, ..., start+cnt-1`. -/
def sumVol (bars : List Bar) (start : ℕ) : ℕ → ℚ
  | 0 => 0
  | k + 1 => sumVol bars start k + (bars.getD (start + k) default).volume

/-- Mean volume over a row window (`['成交量'].mean()`). -/
def volMean (bars : List Bar) (start cnt : ℕ) : ℚ :=
  sumVol bars start cnt / (cnt : ℚ)

/-- The test `ma60_slope >= 0` on `downtrend_days['MA60'].iloc[-1] -
downtrend_days['MA60'].iloc[0]` for a series of length `n`.  In the reachable
branch the window `data[-60:-30]` has 30 rows, so `iloc[0]` is row `n - 60`
and `iloc[-1]` is row `n - 31`.  If either MA60 entry is NaN the numpy
comparison `NaN >= 0` is `False`, hence the `false` fallthrough. -/
def slopeNonNeg (closes : List ℚ) (n : ℕ) : Bool :=
  match maValue closes 60 (n - 31), maValue closes 60 (n - 60) with
  | some a, some b => decide (0 ≤ a - b)
  | _, _ => false

/-- Row `i` has 收盘 strictly below its MA250 entry (`close < MA250`;
`false` when the MA250 entry is NaN). -/
def belowMA250 (bars : List Bar) (i : ℕ) : Bool :=
  match maValue (bars.map Bar.close) 250 i with
  | some m => decide ((bars.getD i default).close < m)
  | none => false

/-- Row `i` has 收盘 strictly above its MA250 entry (`close > MA250`;
`false` when the MA250 entry is NaN). -/
def aboveMA250 (bars : List Bar) (i : ℕ) : Bool :=
  match maValue (bars.map Bar.close) 250 i with
  | some m => decide (m < (bars.getD i default).close)
  | none => false

/-- Boolean result of `check_ma_breakthrough(data)` as a function of the
rows.  Window bookkeeping, writing `n` for the number of rows:
`data[-60:-30]` has `(n - 30) - (n - 60)` rows (python slice clamping is
truncated ℕ subtraction); `recent_data = data.tail(30)` has `min 30 n` rows;
`before_break = recent_data.iloc[:-5]` has `min 30 n - 5` rows starting at
row `n - min 30 n`; `after_break = recent_data.iloc[-5:]` has
`min 5 (min 30 n)` rows starting at row `n - 5`; and in the branch where
`before_break` has at least 10 rows, `before_break.iloc[-10:]` starts at row
`n - 15`. -/
def check_ma_breakthrough_core (bars : List Bar) : Bool :=
  if (bars.length - 30) - (bars.length - 60) < 30 then false
  else if slopeNonNeg (bars.map Bar.close) bars.length then false
  else if min 30 bars.length - 5 < 10 ∨ min 5 (min 30 bars.length) < 5 then false
  else if countWhen (belowMA250 bars) (bars.length - 15) 10 < 8 then false
  else if countWhen (aboveMA250 bars) (bars.length - 5) 5 < 3 then false
  else if volMean bars (bars.length - 5) (min 5 (min 30 bars.length)) ≤
      volMean bars (bars.length - min 30 bars.length) (min 30 bars.length - 5) then false
  else true

/-- `check_ma_breakthrough(data)`: returns the boolean verdict and the
frame as left behind in the caller — the function assigns the derived
columns `data['MA250']` and `data['MA60']` before any of its returns, so
the caller's frame always comes back with both columns attached. -/
def check_ma_breakthrough (df : DataFrame) : Bool × DataFrame :=
  (check_ma_breakthrough_core df.bars,
    { bars := df.bars
      ma250 := some (movingAverage (df.bars.map Bar.close) 250)
      ma60 := some (movingAverage (df.bars.map Bar.close) 60) })

/-- Outcome of one `akshare` provider call: the call raises an exception,
returns `None` / an empty frame, or returns usable data. -/
inductive Fetch (α : Type) where
  | raises : Fetch α
  | missing : Fetch α
  | ok : α → Fetch α
deriving DecidableEq, Repr

/-- The loop
`for i in range(len(p)-1): if p[i] <= p[i+1]: profit_increasing = False`:
the flag survives iff every adjacent pair of the most-recent-first profit
list strictly decreases. -/
def profitIncreasing : List ℚ → Bool
  | p0 :: p1 :: rest => !(decide (p0 ≤ p1)) && profitIncreasing (p1 :: rest)
  | _ => true

/-- Body of the `try` block of `check_financial_growth(code)`.  Inputs:
the ROE fetch (`stock_financial_analysis_indicator`; `ok none` = frame
present but the ROE column missing) and the profit fetch
(`stock_financial_report_sina`; `ok none` = frame present but the 净利润
column missing, `ok (some ps)` = the profit column, most-recent-first).
Returns the body's outcome in `Except` (an escaped exception is `.error`)
together with the number of provider calls performed. -/
def check_financial_growthRun (roeF : Fetch (Option ℚ))
    (profF : Fetch (Option (List ℚ))) : Except Unit Bool × ℕ :=
  match roeF with
  | .raises => (.error (), 1)
  | .missing => (.ok false, 1)
  | .ok none => (.ok false, 1)
  | .ok (some roe) =>
    if roe < 10 then (.ok false, 1)
    else
      match profF with
      | .raises => (.error (), 2)
      | .missing => (.ok false, 2)
      | .ok none => (.ok false, 2)
      | .ok (some profits) =>
        let recent := profits.take 4
        if recent.length < 4 then (.ok false, 2)
        else
          let turning := decide (recent.getD 3 0 < 0) && decide (0 < recent.getD 0 0)
          if !(profitIncreasing recent || turning) then (.ok false, 2)
          else (.ok true, 2)

/-- `check_financial_growth(code)`: the `try` body with the `except` handler
that turns an escaped exception into `False`. -/
def check_financial_growth (roeF : Fetch (Option ℚ))
    (profF : Fetch (Option (List ℚ))) : Bool :=
  match (check_financial_growthRun roeF profF).1 with
  | .error _ => false
  | .ok b => b

/-- The `latest_price` computation of `check_financial_ratios`: the spot
quote (`stock_zh_a_spot_em`, guarded by `try: ... except: pass`) when it
produced a row for the code, otherwise the last 收盘 of the caller's price
frame (`data.iloc[-1]['收盘']`; `none` when the frame is empty, in which
case `iloc[-1]` raises inside the inner `try`). -/
def resolvedPrice (spotF : Fetch (Option ℚ)) (data : List Bar) : Option ℚ :=
  match spotF with
  | .ok (some p) => some p
  | _ => (data.getLast?).map Bar.close

/-- Body of the outer `try` block of `check_financial_ratios(code, data)`.
Inputs: the indicator fetch (`ok none` = 资产负债率 column missing), the
dividend fetch (rows of (年份, 分红金额)), the spot-quote fetch, the current
calendar year, and the price frame rows.  The inner dividend `try` converts
its own exceptions into a plain `False`, so only the first fetch can let an
exception escape to the outer handler.  The second component counts
provider calls performed. -/
def check_financial_ratiosRun (balF : Fetch (Option ℚ))
    (divF : Fetch (List (Int × ℚ))) (spotF : Fetch (Option ℚ))
    (currentYear : Int) (data : List Bar) : Except Unit Bool × ℕ :=
  match balF with
  | .raises => (.error (), 1)
  | .missing => (.ok false, 1)
  | .ok none => (.ok false, 1)
  | .ok (some debtRate) =>
    if debtRate > 20 then (.ok false, 1)
    else
      match divF with
      | .raises => (.ok false, 2)
      | .missing => (.ok false, 2)
      | .ok dividends =>
        let recent := dividends.filter (fun r => currentYear - 1 ≤ r.1)
        if recent.length = 0 then (.ok false, 2)
        else
          match resolvedPrice spotF data with
          | none => (.ok false, 3)
          | some price =>
            if (recent.map Prod.snd).sum / price * 100 < 3 then (.ok false, 3)
            else (.ok true, 3)

/-- `check_financial_ratios(code, data)`: the outer `try` body with the
`except` handler that turns an escaped exception into `False`. -/
def check_financial_ratios (balF : Fetch (Option ℚ))
    (divF : Fetch (List (Int × ℚ))) (spotF : Fetch (Option ℚ))
    (currentYear : Int) (data : List Bar) : Bool :=
  match (check_financial_ratiosRun balF divF spotF currentYear data).1 with
  | .error _ => false
  | .ok b => b

/-- `check(code_name, data)` with the provider behaviour supplied as `Fetch`
values: the 250-row gate, then the three short-circuited stages.  The frame
handed to `check_financial_ratios` is the frame as mutated by
`check_ma_breakthrough` (its rows are unchanged). -/
def check (df : DataFrame) (roeF : Fetch (Option ℚ))
    (profF : Fetch (Option (List ℚ))) (balF : Fetch (Option ℚ))
    (divF : Fetch (List (Int × ℚ))) (spotF : Fetch (Option ℚ))
    (currentYear : Int) : Bool :=
  if df.bars.length < 250 then false
  else if !(check_ma_breakthrough df).1 then false
  else if !check_financial_growth roeF profF then false
  else if !check_financial_ratios balF divF spotF currentYear
      (check_ma_breakthrough df).2.bars then false
  else true

/-- Number of provider calls performed during `check`: none before the
second stage starts, then those of `check_financial_growth`, then — only
when the growth stage passes — those of `check_financial_ratios`. -/
def check_fetch_count (df : DataFrame) (roeF : Fetch (Option ℚ))
    (profF : Fetch (Option (List ℚ))) (balF : Fetch (Option ℚ))
    (divF : Fetch (List (Int × ℚ))) (spotF : Fetch (Option ℚ))
    (currentYear : Int) : ℕ :=
  if df.bars.length < 250 then 0
  else if !(check_ma_breakthrough df).1 then 0
  else
    (check_financial_growthRun roeF profF).2 +
      (if check_financial_growth roeF profF then
        (check_financial_ratiosRun balF divF spotF currentYear
          (check_ma_breakthrough df).2.bars).2
      else 0)

/-- 262-bar series: flat closes through bar 246, so the MA60 slope over
`[-60,-30)` is exactly zero; bars 247–256 sit far below MA250 (the 8 of
them with a defined MA250 entry are below), the final 5 bars are above it,
and the final 5 volumes exceed the trailing-10 volumes but not the full
25-bar before-window volumes. -/
def cBarsA : List Bar := (List.range 262).map fun i =>
  if i < 232 then ⟨100, 100⟩ else if i < 247 then ⟨100, 1000⟩
  else if i < 257 then ⟨10, 100⟩ else ⟨200, 300⟩

/-- 262-bar series passing every gate of the detector: MA60 declines over
`[-60,-30)`, 8 of the 10 before-bars are below MA250 (the other 2 have an
undefined MA250), all 5 after-bars are above it, and the after volumes
(300) exceed the 25-bar before-window mean (100). -/
def cBarsB : List Bar := (List.range 262).map fun i =>
  if i < 203 then ⟨100, 100⟩ else if i < 232 then ⟨50, 100⟩
  else if i < 247 then ⟨100, 100⟩ else if i < 257 then ⟨10, 100⟩ else ⟨200, 300⟩

/-- Same closes as `cBarsB`, but the after-window volume mean (300) equals
the trailing-10 before-bar volume mean (300) while still exceeding the
25-bar before-window mean (180): the detector still passes. -/
def cBarsC : List Bar := (List.range 262).map fun i =>
  if i < 203 then ⟨100, 100⟩ else if i < 232 then ⟨50, 100⟩
  else if i < 247 then ⟨100, 100⟩ else if i < 257 then ⟨10, 300⟩ else ⟨200, 300⟩

/-- Same closes as `cBarsB` with all volumes equal, so the detector reaches
the volume confirmation and fails it on equality. -/
def cBarsD : List Bar := (List.range 262).map fun i =>
  if i < 203 then ⟨100, 100⟩ else if i < 232 then ⟨50, 100⟩
  else if i < 247 then ⟨100, 100⟩ else if i < 257 then ⟨10, 100⟩ else ⟨200, 100⟩

/-- A count over a window of indices all at least `t` is bounded by the
part of the window at or above `t`. -/
lemma countWhen_le (p : ℕ → Bool) (start t : ℕ)
    (h : ∀ k, p (start + k) = true → t ≤ start + k) :
    ∀ cnt, countWhen p start cnt ≤ start + cnt - t := by
  intro cnt
  induction cnt with
  | zero => simp [countWhen]
  | succ k ih =>
    unfold countWhen
    by_cases hp : p (start + k) = true
    · have ht := h k hp
      rw [if_pos hp]
      omega
    · rw [if_neg hp]
      omega

/-- A before-bar can only count as below MA250 when its MA250 entry is
defined, which needs at least 250 trailing rows. -/
lemma belowMA250_imp (bars : List Bar) (i : ℕ)
    (h : belowMA250 bars i = true) : 249 ≤ i := by
  unfold belowMA250 maValue at h
  by_cases hw : 250 ≤ i + 1
  · omega
  · rw [if_neg hw] at h
    simp at h

/-- For fewer than 262 rows, at most 7 of the 10 before-bars have a defined
MA250 entry, so the below-MA250 gate fails and the detector is false. -/
lemma core_false_of_short (bars : List Bar) (h : bars.length < 262) :
    check_ma_breakthrough_core bars = false := by
  unfold check_ma_breakthrough_core
  by_cases h1 : (bars.length - 30) - (bars.length - 60) < 30
  · rw [if_pos h1]
  · rw [if_neg h1]
    have hn : 60 ≤ bars.length := by omega
    have hb : countWhen (belowMA250 bars) (bars.length - 15) 10 < 8 := by
      have hc := countWhen_le (belowMA250 bars) (bars.length - 15) 249
        (fun k hk => belowMA250_imp bars _ hk) 10
      omega
    by_cases h2 : slopeNonNeg (bars.map Bar.close) bars.length = true
    · rw [if_pos h2]
    · rw [if_neg h2]
      by_cases h3 : min 30 bars.length - 5 < 10 ∨ min 5 (min 30 bars.length) < 5
      · rw [if_pos h3]
      · rw [if_neg h3, if_pos hb]

/-- A non-negative MA60 slope makes the detector false. -/
lemma core_false_of_slope (bars : List Bar)
    (h : slopeNonNeg (bars.map Bar.close) bars.length = true) :
    check_ma_breakthrough_core bars = false := by
  unfold check_ma_breakthrough_core
  by_cases h1 : (bars.length - 30) - (bars.length - 60) < 30
  · rw [if_pos h1]
  · rw [if_neg h1, if_pos h]

/-- When every gate up to volume confirmation passes, the detector's verdict
is exactly the strict comparison of the 5-bar after-window volume mean
against the 25-bar `before_break` volume mean. -/
lemma core_volume_step (bars : List Bar)
    (hdown : ¬((bars.length - 30) - (bars.length - 60) < 30))
    (hslope : slopeNonNeg (bars.map Bar.close) bars.length = false)
    (hbelow : 8 ≤ countWhen (belowMA250 bars) (bars.length - 15) 10)
    (habove : 3 ≤ countWhen (aboveMA250 bars) (bars.length - 5) 5) :
    check_ma_breakthrough_core bars =
      decide (volMean bars (bars.length - 30) 25 < volMean bars (bars.length - 5) 5) := by
  have hn : 60 ≤ bars.length := by omega
  have h30 : min 30 bars.length = 30 := by omega
  have h5 : min 5 (30 : ℕ) = 5 := by norm_num
  have h25 : (30 : ℕ) - 5 = 25 := by norm_num
  unfold check_ma_breakthrough_core
  rw [if_neg hdown, if_neg (by rw [hslope]; exact Bool.false_ne_true), h30, h5, h25]
  rw [if_neg (by omega), if_neg (by omega), if_neg (by omega)]
  by_cases hv : volMean bars (bars.length - 5) 5 ≤ volMean bars (bars.length - 30) 25
  · rw [if_pos hv]
    exact (decide_eq_false (not_lt.mpr hv)).symm
  · rw [if_neg hv]
    exact (decide_eq_true (lt_of_not_le hv)).symm

set_option maxRecDepth 8000

attribute [local semireducible] Rat.add Rat.mul Rat.inv Rat.sub

/-- C1 counterexample: on the most-recent-first quarterly profits
`[-10, -5, 2, 8]` the loop clears the profit-increasing flag at its first
pair (because `-10 <= -5`), and with ROE 15 the whole
`check_financial_growth` trajectory check fails — the claim's asserted pass
via the monotonic branch does not happen. -/
theorem C1_counterexample :
    profitIncreasing [-10, -5, 2, 8] = false ∧
    check_financial_growth (.ok (some 15)) (.ok (some [-10, -5, 2, 8])) = false := by
  decide

/-- C1 amended: on `[-10, -5, 2, 8]` (most-recent-first) the monotonic flag
is cleared and the turnaround branch does not apply (the oldest figure 8 is
not negative), so the trajectory sub-check fails; the time-mirrored list
`[8, 2, -5, -10]` is the one that keeps the flag true and passes. -/
theorem C1_profit_trajectory_amended :
    profitIncreasing [-10, -5, 2, 8] = false ∧
    check_financial_growth (.ok (some 15)) (.ok (some [-10, -5, 2, 8])) = false ∧
    profitIncreasing [8, 2, -5, -10] = true ∧
    check_financial_growth (.ok (some 15)) (.ok (some [8, 2, -5, -10])) = true := by
  decide

/-- C4: for a price frame with fewer than 250 rows the composite `check` is
false (the length gate), and the trend detector alone is also false
(every MA250 entry of such a frame is NaN, so the below-MA250 gate cannot
reach 8), whatever the prices, volumes and provider behaviour. -/
theorem C4_short_series_fail (df : DataFrame) (roeF : Fetch (Option ℚ))
    (profF : Fetch (Option (List ℚ))) (balF : Fetch (Option ℚ))
    (divF : Fetch (List (Int × ℚ))) (spotF : Fetch (Option ℚ)) (y : Int)
    (h : df.bars.length < 250) :
    check df roeF profF balF divF spotF y = false ∧
    (check_ma_breakthrough df).1 = false := by
  refine ⟨?_, core_false_of_short df.bars (by omega)⟩
  unfold check
  rw [if_pos h]

/-- C4 witness: the empty frame with an always-raising provider. -/
theorem C4_short_series_fail_witness :
    (⟨[], none, none⟩ : DataFrame).bars.length < 250 ∧
    check ⟨[], none, none⟩ .raises .raises .raises .raises .raises 2026 = false ∧
    (check_ma_breakthrough ⟨[], none, none⟩).1 = false :=
  ⟨by decide,
    (C4_short_series_fail ⟨[], none, none⟩ .raises .raises .raises .raises .raises 2026
      (by decide)).1,
    (C4_short_series_fail ⟨[], none, none⟩ .raises .raises .raises .raises .raises 2026
      (by decide)).2⟩

/-- C5: with fewer than 262 rows, at most 7 of the 10 before-bars have a
defined MA250 value, an undefined value never counts as below, so the
8-of-10 gate fails and the detector is false regardless of the data. -/
theorem C5_detector_needs_262 (df : DataFrame) (h : df.bars.length < 262) :
    (check_ma_breakthrough df).1 = false :=
  core_false_of_short df.bars h

/-- C5 witness: a 261-row frame is still rejected. -/
theorem C5_detector_needs_262_witness :
    (⟨(List.range 261).map (fun i => ⟨(i : ℚ), 1⟩), none, none⟩ : DataFrame).bars.length
      < 262 ∧
    (check_ma_breakthrough
      ⟨(List.range 261).map (fun i => ⟨(i : ℚ), 1⟩), none, none⟩).1 = false :=
  ⟨by decide,
    C5_detector_needs_262 ⟨(List.range 261).map (fun i => ⟨(i : ℚ), 1⟩), none, none⟩
      (by decide)⟩

/-- C8: for a frame of at least 250 rows both MA60 endpoints of the
`data[-60:-30]` window are defined, and a zero difference fails the
detector; the detector can only pass when the difference is strictly
negative. -/
theorem C8_zero_slope_fails (df : DataFrame) (a b : ℚ)
    (_h250 : 250 ≤ df.bars.length)
    (ha : maValue (df.bars.map Bar.close) 60 (df.bars.length - 31) = some a)
    (hb : maValue (df.bars.map Bar.close) 60 (df.bars.length - 60) = some b) :
    (a - b = 0 → (check_ma_breakthrough df).1 = false) ∧
    ((check_ma_breakthrough df).1 = true → a - b < 0) := by
  have hs : slopeNonNeg (df.bars.map Bar.close) df.bars.length = decide (0 ≤ a - b) := by
    unfold slopeNonNeg
    rw [ha, hb]
  constructor
  · intro hz
    refine core_false_of_slope df.bars ?_
    rw [hs, hz]
    decide
  · intro ht
    by_contra hlt
    push_neg at hlt
    have hfalse : check_ma_breakthrough_core df.bars = false :=
      core_false_of_slope df.bars (by rw [hs]; exact decide_eq_true hlt)
    have : (check_ma_breakthrough df).1 = false := hfalse
    rw [this] at ht
    exact Bool.false_ne_true ht

/-- C8 witness: `cBarsA` has a flat MA60 over the window (both endpoints
equal 100), and the detector rejects it. -/
theorem C8_zero_slope_fails_witness :
    250 ≤ (⟨cBarsA, none, none⟩ : DataFrame).bars.length ∧
    (check_ma_breakthrough ⟨cBarsA, none, none⟩).1 = false :=
  ⟨by decide,
    (C8_zero_slope_fails ⟨cBarsA, none, none⟩ 100 100 (by decide) (by decide)
      (by decide)).1 (by norm_num)⟩

/-- C2 counterexample: `cBarsA` meets every hypothesis of the claim — 262
(≥ 250) rows, exactly 8 of the 10 before-bars below MA250, all 5 after-bars
above it, and the after-window volume mean strictly above the trailing-10
before-bar volume mean — yet the detector returns false (its MA60 slope
over `data[-60:-30]` is zero, and its volume gate compares against the full
25-bar `before_break` mean, which the after mean does not exceed). -/
theorem C2_counterexample :
    250 ≤ cBarsA.length ∧
    countWhen (belowMA250 cBarsA) (cBarsA.length - 15) 10 = 8 ∧
    3 ≤ countWhen (aboveMA250 cBarsA) (cBarsA.length - 5) 5 ∧
    volMean cBarsA (cBarsA.length - 15) 10 < volMean cBarsA (cBarsA.length - 5) 5 ∧
    (check_ma_breakthrough ⟨cBarsA, none, none⟩).1 = false :=
  ⟨by decide, by decide, by decide, by decide, by decide⟩

/-- C2 amended: the minimal-pass scenario must additionally pass the
prior-downtrend gate (non-negative MA60 slope fails the detector first),
and the volume confirmation compares the 5-bar after mean against the mean
over the whole 25-bar `before_break` window, not the trailing 10 bars.
Under those hypotheses the detector returns true. -/
theorem C2_minimal_pass_amended (df : DataFrame)
    (h250 : 250 ≤ df.bars.length)
    (hslope : slopeNonNeg (df.bars.map Bar.close) df.bars.length = false)
    (hbelow : countWhen (belowMA250 df.bars) (df.bars.length - 15) 10 = 8)
    (habove : 3 ≤ countWhen (aboveMA250 df.bars) (df.bars.length - 5) 5)
    (hvol : volMean df.bars (df.bars.length - 30) 25 <
      volMean df.bars (df.bars.length - 5) 5) :
    (check_ma_breakthrough df).1 = true := by
  have hstep := core_volume_step df.bars (by omega) hslope (by omega) habove
  have he : (check_ma_breakthrough df).1 = check_ma_breakthrough_core df.bars := rfl
  rw [he, hstep]
  exact decide_eq_true hvol

/-- C2 witness: `cBarsB` satisfies all amended hypotheses and passes. -/
theorem C2_minimal_pass_amended_witness :
    (check_ma_breakthrough ⟨cBarsB, none, none⟩).1 = true :=
  C2_minimal_pass_amended ⟨cBarsB, none, none⟩ (by decide) (by decide) (by decide)
    (by decide) (by decide)

/-- C3 counterexample: the detector is not frame-pure — it hands back the
caller's frame with MA250/MA60 columns attached, so the frame after the
call differs from the frame before it. -/
theorem C3_counterexample :
    (check_ma_breakthrough ⟨[⟨100, 100⟩], none, none⟩).2 ≠
      (⟨[⟨100, 100⟩], none, none⟩ : DataFrame) := by
  decide

/-- C3 amended: the verdict and the returned frame depend only on the price
history (the rows), the rows themselves come back unchanged, but the frame
is mutated by attaching the MA250 and MA60 derived columns. -/
theorem C3_detector_frame_amended (df df' : DataFrame) (h : df.bars = df'.bars) :
    (check_ma_breakthrough df).1 = (check_ma_breakthrough df').1 ∧
    (check_ma_breakthrough df).2 = (check_ma_breakthrough df').2 ∧
    (check_ma_breakthrough df).2.bars = df.bars ∧
    (check_ma_breakthrough df).2.ma250 =
      some (movingAverage (df.bars.map Bar.close) 250) ∧
    (check_ma_breakthrough df).2.ma60 =
      some (movingAverage (df.bars.map Bar.close) 60) := by
  unfold check_ma_breakthrough
  rw [h]
  exact ⟨rfl, rfl, rfl, rfl, rfl⟩

/-- C3 witness: two frames with the same rows but different attached
columns produce the same verdict and the same output frame. -/
theorem C3_detector_frame_amended_witness :
    (check_ma_breakthrough ⟨[⟨100, 100⟩], none, none⟩).1 =
      (check_ma_breakthrough ⟨[⟨100, 100⟩], some [], some []⟩).1 ∧
    (check_ma_breakthrough ⟨[⟨100, 100⟩], none, none⟩).2 =
      (check_ma_breakthrough ⟨[⟨100, 100⟩], some [], some []⟩).2 ∧
    (check_ma_breakthrough ⟨[⟨100, 100⟩], none, none⟩).2.bars = [⟨100, 100⟩] ∧
    (check_ma_breakthrough ⟨[⟨100, 100⟩], none, none⟩).2.ma250 =
      some (movingAverage ([⟨100, 100⟩].map Bar.close) 250) ∧
    (check_ma_breakthrough ⟨[⟨100, 100⟩], none, none⟩).2.ma60 =
      some (movingAverage ([⟨100, 100⟩].map Bar.close) 60) :=
  C3_detector_frame_amended ⟨[⟨100, 100⟩], none, none⟩
    ⟨[⟨100, 100⟩], some [], some []⟩ rfl

/-- C6 counterexample: a raising live-quote fetch is swallowed by the inner
`try: ... except: pass`, the price falls back to the last close, and the
sub-check can still pass — so an erroring fetch does not force a false
outcome. -/
theorem C6_counterexample :
    check_financial_ratios (.ok (some 10)) (.ok [(2026, 1)]) .raises 2026
      [⟨10, 100⟩] = true := by
  decide

/-- C6 amended: both sub-checks always yield a boolean and never let an
exception escape: an escaped body exception is converted to false by the
`except` handler; a raising fetch in `check_financial_growth`, and a
raising indicator or dividend fetch in `check_financial_ratios`, give
false; only the live-quote fetch error is absorbed with a fallback price
and may still yield true. -/
theorem C6_error_absorption_amended (roeF : Fetch (Option ℚ))
    (profF : Fetch (Option (List ℚ))) (balF : Fetch (Option ℚ))
    (divF : Fetch (List (Int × ℚ))) (spotF : Fetch (Option ℚ)) (y : Int)
    (data : List Bar) :
    ((roeF = .raises ∨ profF = .raises) → check_financial_growth roeF profF = false) ∧
    (balF = .raises → check_financial_ratios balF divF spotF y data = false) ∧
    (divF = .raises → check_financial_ratios balF divF spotF y data = false) ∧
    (∀ e, (check_financial_growthRun roeF profF).1 = .error e →
      check_financial_growth roeF profF = false) ∧
    (∀ e, (check_financial_ratiosRun balF divF spotF y data).1 = .error e →
      check_financial_ratios balF divF spotF y data = false) := by
  refine ⟨?_, ?_, ?_, ?_, ?_⟩
  · rintro (rfl | rfl)
    · rfl
    · rcases roeF with _ | _ | a
      · rfl
      · rfl
      · rcases a with _ | roe
        · rfl
        · by_cases hr : roe < 10 <;>
            simp [check_financial_growth, check_financial_growthRun, hr]
  · rintro rfl
    rfl
  · rintro rfl
    rcases balF with _ | _ | a
    · rfl
    · rfl
    · rcases a with _ | d
      · rfl
      · by_cases hd : d > 20 <;>
          simp [check_financial_ratios, check_financial_ratiosRun, hd]
  · intro e he
    simp [check_financial_growth, he]
  · intro e he
    simp [check_financial_ratios, he]

/-- C6 witness: concrete raising fetches yield false from both checks. -/
theorem C6_error_absorption_amended_witness :
    check_financial_growth .raises .raises = false ∧
    check_financial_ratios .raises .raises .raises 2026 [] = false :=
  ⟨(C6_error_absorption_amended .raises .raises .raises .raises .raises 2026 []).1
      (Or.inl rfl),
    (C6_error_absorption_amended .raises .raises .raises .raises .raises 2026 []).2.1
      rfl⟩

/-- C7: when the trend detector rejects, the composite check is false for
every provider behaviour — the same false for any two behaviours — and no
provider fetch is performed at all. -/
theorem C7_short_circuit_no_fetch (df : DataFrame)
    (roeF1 roeF2 : Fetch (Option ℚ)) (profF1 profF2 : Fetch (Option (List ℚ)))
    (balF1 balF2 : Fetch (Option ℚ)) (divF1 divF2 : Fetch (List (Int × ℚ)))
    (spotF1 spotF2 : Fetch (Option ℚ)) (y1 y2 : Int)
    (h : (check_ma_breakthrough df).1 = false) :
    check df roeF1 profF1 balF1 divF1 spotF1 y1 = false ∧
    check df roeF2 profF2 balF2 divF2 spotF2 y2 = false ∧
    check df roeF1 profF1 balF1 divF1 spotF1 y1 =
      check df roeF2 profF2 balF2 divF2 spotF2 y2 ∧
    check_fetch_count df roeF1 profF1 balF1 divF1 spotF1 y1 = 0 := by
  have key : ∀ (rF : Fetch (Option ℚ)) (pF : Fetch (Option (List ℚ)))
      (bF : Fetch (Option ℚ)) (dF : Fetch (List (Int × ℚ)))
      (sF : Fetch (Option ℚ)) (y : Int), check df rF pF bF dF sF y = false := by
    intro rF pF bF dF sF y
    unfold check
    by_cases hl : df.bars.length < 250
    · rw [if_pos hl]
    · rw [if_neg hl, if_pos (by rw [h]; rfl)]
  have keyc : check_fetch_count df roeF1 profF1 balF1 divF1 spotF1 y1 = 0 := by
    unfold check_fetch_count
    by_cases hl : df.bars.length < 250
    · rw [if_pos hl]
    · rw [if_neg hl, if_pos (by rw [h]; rfl)]
  exact ⟨key roeF1 profF1 balF1 divF1 spotF1 y1,
    key roeF2 profF2 balF2 divF2 spotF2 y2,
    by rw [key roeF1 profF1 balF1 divF1 spotF1 y1,
      key roeF2 profF2 balF2 divF2 spotF2 y2],
    keyc⟩

/-- C7 witness: the empty frame with two very different provider
behaviours. -/
theorem C7_short_circuit_no_fetch_witness :
    check ⟨[], none, none⟩ .raises .raises .raises .raises .raises 2026 = false ∧
    check ⟨[], none, none⟩ (.ok (some 15)) (.ok (some [8, 2, -5, -10]))
      (.ok (some 10)) (.ok [(2026, 3)]) (.ok (some 50)) 2026 = false ∧
    check ⟨[], none, none⟩ .raises .raises .raises .raises .raises 2026 =
      check ⟨[], none, none⟩ (.ok (some 15)) (.ok (some [8, 2, -5, -10]))
        (.ok (some 10)) (.ok [(2026, 3)]) (.ok (some 50)) 2026 ∧
    check_fetch_count ⟨[], none, none⟩ .raises .raises .raises .raises .raises
      2026 = 0 :=
  C7_short_circuit_no_fetch ⟨[], none, none⟩ .raises (.ok (some 15)) .raises
    (.ok (some [8, 2, -5, -10])) .raises (.ok (some 10)) .raises (.ok [(2026, 3)])
    .raises (.ok (some 50)) 2026 2026 (by decide)

/-- C9 counterexample: on `cBarsC` the after-window volume mean equals the
trailing-10 before-bar volume mean, yet the detector passes — the code's
volume gate compares against the 25-bar `before_break` mean instead. -/
theorem C9_counterexample :
    volMean cBarsC (cBarsC.length - 15) 10 = volMean cBarsC (cBarsC.length - 5) 5 ∧
    (check_ma_breakthrough ⟨cBarsC, none, none⟩).1 = true :=
  ⟨by decide, by decide⟩

/-- C9 amended: for a series reaching the volume-confirmation step, an
after-window volume mean equal to the mean over the whole 25-bar
`before_break` window (not the trailing 10 bars) makes the detector
return false: strict inequality is required. -/
theorem C9_volume_equality_amended (df : DataFrame)
    (hdown : ¬((df.bars.length - 30) - (df.bars.length - 60) < 30))
    (hslope : slopeNonNeg (df.bars.map Bar.close) df.bars.length = false)
    (hbelow : 8 ≤ countWhen (belowMA250 df.bars) (df.bars.length - 15) 10)
    (habove : 3 ≤ countWhen (aboveMA250 df.bars) (df.bars.length - 5) 5)
    (hvol : volMean df.bars (df.bars.length - 30) 25 =
      volMean df.bars (df.bars.length - 5) 5) :
    (check_ma_breakthrough df).1 = false := by
  have hstep := core_volume_step df.bars hdown hslope hbelow habove
  have he : (check_ma_breakthrough df).1 = check_ma_breakthrough_core df.bars := rfl
  rw [he, hstep, hvol]
  simp

/-- C9 witness: `cBarsD` reaches the volume gate with equal 25-bar and
5-bar means and is rejected. -/
theorem C9_volume_equality_amended_witness :
    (check_ma_breakthrough ⟨cBarsD, none, none⟩).1 = false :=
  C9_volume_equality_amended ⟨cBarsD, none, none⟩ (by decide) (by decide)
    (by decide) (by decide) (by decide)

/-- C10: when the debt gate passes and qualifying dividend rows exist, the
sub-check passes iff `total_dividend / latest_price * 100` is at least 3,
with `latest_price` resolved from the live quote or, failing that, the last
close of the price frame; the 3% boundary is inclusive. -/
theorem C10_dividend_yield (d : ℚ) (divs : List (Int × ℚ)) (spotF : Fetch (Option ℚ))
    (y : Int) (data : List Bar) (p : ℚ)
    (hd : ¬ d > 20)
    (hrec : (divs.filter (fun r => y - 1 ≤ r.1)).length ≠ 0)
    (hp : resolvedPrice spotF data = some p) :
    (check_financial_ratios (.ok (some d)) (.ok divs) spotF y data = true ↔
      3 ≤ ((divs.filter (fun r => y - 1 ≤ r.1)).map Prod.snd).sum / p * 100) := by
  simp only [check_financial_ratios, check_financial_ratiosRun, hp, hd, hrec,
    if_false, ite_false]
  by_cases hy : ((divs.filter (fun r => y - 1 ≤ r.1)).map Prod.snd).sum / p * 100 < 3
  · rw [if_pos hy]
    exact iff_of_false Bool.false_ne_true (not_le.mpr hy)
  · rw [if_neg hy]
    exact iff_of_true rfl (not_lt.mp hy)

/-- C10 witness: a dividend total of 3 against a live quote of 100 is a
yield of exactly 3%, which passes. -/
theorem C10_dividend_yield_witness :
    check_financial_ratios (.ok (some 10)) (.ok [(2026, 3)]) (.ok (some 100)) 2026
      [⟨50, 0⟩] = true :=
  (C10_dividend_yield 10 [(2026, 3)] (.ok (some 100)) 2026 [⟨50, 0⟩] 100
    (by norm_num) (by decide) (by decide)).mpr (by norm_num)
